import Mathlib

/-!
Shallow embedding of the execution core of `icicle-emu`
(`src/icicle-cpu/src/lib.rs`): the block table (translation cache), the
exception-code taxonomy with its conversion functions, and the no-op
guest environment. Machine integers (`u32`, `u64`, `usize`) are modelled
as `Nat`; the operations verified here never overflow, so no explicit
modular reduction is needed. A Rust `panic!` (including an out-of-bounds
`Vec` index) is modelled as `Option.none`.
-/

namespace Icicle

/-- Intermediate-form operation (`pcode::Op`). Only the distinction between
`InstructionMarker` and every other operation is observable by the code
embedded here, so the remaining operations are collapsed into a single
constructor carrying an opaque discriminant. -/
inductive Op where
  | InstructionMarker : Op
  | Other : Nat → Op
deriving DecidableEq

/-- One intermediate-form instruction (`pcode::Instruction`). `arg0` models
`inst.inputs.first().as_u64()`, the only input field read by the embedded
code (the address carried by an `InstructionMarker`). -/
structure Instruction where
  op : Op
  arg0 : Nat
deriving DecidableEq

/-- The pcode body of a lifted block (`pcode::Block`): its instruction
stream. -/
structure Pcode where
  instructions : List Instruction
deriving DecidableEq

/-- A lifted block (`lifter::Block`); only its `pcode` field is read by
the embedded code. -/
structure Block where
  pcode : Pcode
deriving DecidableEq

/-- `BlockKey { vaddr, isa_mode }`. -/
structure BlockKey where
  vaddr : Nat
  isa_mode : Nat
deriving DecidableEq

/-- `lifter::BlockGroup`: a contiguous index range over the block store.
Only its identity matters to the code embedded here. -/
structure BlockGroup where
  blocks : Nat × Nat
deriving DecidableEq

/-- `BlockTable`: the translation cache. The hash map `map` is modelled as
an association list, the hash map `disasm` likewise, and the hash sets
`breakpoints` and `modified` as lists. -/
structure BlockTable where
  map : List (BlockKey × BlockGroup)
  blocks : List Block
  disasm : List (Nat × String)
  breakpoints : List Nat
  modified : List Nat

/-- `self.map.get(&key)` of the lookup hash map, on the association-list
model. -/
def BlockTable.lookup (t : BlockTable) (k : BlockKey) : Option BlockGroup :=
  (t.map.find? (fun p => p.1 == k)).map (fun p => p.2)

/-- `BlockTable::flush_code`: clears `map`, `blocks`, `disasm` and
`modified`; `breakpoints` is not touched. -/
def BlockTable.flush_code (t : BlockTable) : BlockTable :=
  { t with map := [], blocks := [], disasm := [], modified := [] }

/-- `BlockTable::address_of(id, offset)`: indexes the block store with
`id` (`none` models the panic on an out-of-bounds index), takes the first
`offset` instructions of the block's pcode stream, keeps the
`InstructionMarker`s, maps each to its first input, and returns the last
such address, defaulting to `0`. -/
def BlockTable.address_of (t : BlockTable) (id : Nat) (offset : Nat) : Option Nat :=
  (t.blocks[id]?).map fun block =>
    ((((block.pcode.instructions.take offset).filter
        (fun inst => inst.op == Op.InstructionMarker)).map
        (fun x => x.arg0)).getLast?).getD 0

/-- `ExceptionCode` (`#[repr(u32)]`), all 36 variants in source order. -/
inductive ExceptionCode where
  | None
  | InstructionLimit
  | Halt
  | Sleep
  | Syscall
  | CpuStateChanged
  | DivideByZero
  | ReadUnmapped
  | ReadPerm
  | ReadUnaligned
  | ReadWatch
  | ReadUninitialized
  | WriteUnmapped
  | WritePerm
  | WriteWatch
  | WriteUnaligned
  | ExecViolation
  | SelfModifyingCode
  | ExecUnaligned
  | OutOfMemory
  | AddressOverflow
  | InvalidInstruction
  | UnknownInterrupt
  | UnknownCpuID
  | InvalidOpSize
  | InvalidFloatSize
  | CodeNotTranslated
  | ShadowStackOverflow
  | ShadowStackInvalid
  | InvalidTarget
  | UnimplementedOp
  | ExternalAddr
  | Environment
  | JitError
  | InternalError
  | UnknownError
deriving DecidableEq

/-- The `u32` discriminant of each `ExceptionCode` variant: the explicit
values written in the enum, and for `UnknownError` the implicit successor
of `InternalError = 0x3002`. -/
def ExceptionCode.toU32 : ExceptionCode → Nat
  | .None => 0x0000
  | .InstructionLimit => 0x0001
  | .Halt => 0x0002
  | .Sleep => 0x0003
  | .Syscall => 0x0101
  | .CpuStateChanged => 0x0102
  | .DivideByZero => 0x0103
  | .ReadUnmapped => 0x0201
  | .ReadPerm => 0x0202
  | .ReadUnaligned => 0x0203
  | .ReadWatch => 0x0204
  | .ReadUninitialized => 0x0205
  | .WriteUnmapped => 0x0301
  | .WritePerm => 0x0302
  | .WriteWatch => 0x0303
  | .WriteUnaligned => 0x0304
  | .ExecViolation => 0x0401
  | .SelfModifyingCode => 0x0402
  | .ExecUnaligned => 0x0404
  | .OutOfMemory => 0x0501
  | .AddressOverflow => 0x0502
  | .InvalidInstruction => 0x1001
  | .UnknownInterrupt => 0x1002
  | .UnknownCpuID => 0x1003
  | .InvalidOpSize => 0x1004
  | .InvalidFloatSize => 0x1005
  | .CodeNotTranslated => 0x1006
  | .ShadowStackOverflow => 0x1007
  | .ShadowStackInvalid => 0x1008
  | .InvalidTarget => 0x1009
  | .UnimplementedOp => 0x100a
  | .ExternalAddr => 0x2001
  | .Environment => 0x2002
  | .JitError => 0x3001
  | .InternalError => 0x3002
  | .UnknownError => 0x3003

/-- The numeric codes given an explicit value in the `ExceptionCode`
enum (35 values; `UnknownError` has no written literal). -/
def documentedCodes : List Nat :=
  [0x0000, 0x0001, 0x0002, 0x0003,
   0x0101, 0x0102, 0x0103,
   0x0201, 0x0202, 0x0203, 0x0204, 0x0205,
   0x0301, 0x0302, 0x0303, 0x0304,
   0x0401, 0x0402, 0x0404, 0x0501, 0x0502,
   0x1001, 0x1002, 0x1003, 0x1004, 0x1005,
   0x1006, 0x1007, 0x1008, 0x1009, 0x100a,
   0x2001, 0x2002,
   0x3001, 0x3002]

/-- `ExceptionCode::from_u32`, parameterized by the build flag
`cfg!(debug_assertions)`: the fall-through arm panics (`none`) when the
flag is set and returns `UnknownError` otherwise. The recognized codes are
exactly the 34 literals matched in the source (`0x0404` has no arm). -/
def ExceptionCode.from_u32 (debugAssertions : Bool) (code : Nat) : Option ExceptionCode :=
  if code = 0x0000 then some .None
  else if code = 0x0001 then some .InstructionLimit
  else if code = 0x0002 then some .Halt
  else if code = 0x0003 then some .Sleep
  else if code = 0x0101 then some .Syscall
  else if code = 0x0102 then some .CpuStateChanged
  else if code = 0x0103 then some .DivideByZero
  else if code = 0x0201 then some .ReadUnmapped
  else if code = 0x0202 then some .ReadPerm
  else if code = 0x0203 then some .ReadUnaligned
  else if code = 0x0204 then some .ReadWatch
  else if code = 0x0205 then some .ReadUninitialized
  else if code = 0x0301 then some .WriteUnmapped
  else if code = 0x0302 then some .WritePerm
  else if code = 0x0303 then some .WriteWatch
  else if code = 0x0304 then some .WriteUnaligned
  else if code = 0x0401 then some .ExecViolation
  else if code = 0x0402 then some .SelfModifyingCode
  else if code = 0x0501 then some .OutOfMemory
  else if code = 0x0502 then some .AddressOverflow
  else if code = 0x1001 then some .InvalidInstruction
  else if code = 0x1002 then some .UnknownInterrupt
  else if code = 0x1003 then some .UnknownCpuID
  else if code = 0x1004 then some .InvalidOpSize
  else if code = 0x1005 then some .InvalidFloatSize
  else if code = 0x1006 then some .CodeNotTranslated
  else if code = 0x1007 then some .ShadowStackOverflow
  else if code = 0x1008 then some .ShadowStackInvalid
  else if code = 0x1009 then some .InvalidTarget
  else if code = 0x100a then some .UnimplementedOp
  else if code = 0x2001 then some .ExternalAddr
  else if code = 0x2002 then some .Environment
  else if code = 0x3001 then some .JitError
  else if code = 0x3002 then some .InternalError
  else if debugAssertions then none
  else some .UnknownError

/-- `ExceptionCode::is_running`. -/
def ExceptionCode.is_running : ExceptionCode → Bool
  | .None | .InstructionLimit => true
  | _ => false

/-- `ExceptionCode::is_memory_error`. -/
def ExceptionCode.is_memory_error : ExceptionCode → Bool
  | .ReadUnmapped | .ReadPerm | .ReadUnaligned | .ReadWatch | .ReadUninitialized
  | .WriteUnmapped | .WritePerm | .WriteWatch | .WriteUnaligned
  | .SelfModifyingCode => true
  | _ => false

/-- `icicle_mem::MemError`. The crate itself is outside `src/`, but its
variant set is fully determined by the exhaustive (no-wildcard) `match` in
`impl From<icicle_mem::MemError> for ExceptionCode`: exactly these 13
variants, `Uninitalized` spelled as in the source. -/
inductive MemError where
  | Unmapped
  | Unallocated
  | Uninitalized
  | ReadViolation
  | WriteViolation
  | ExecViolation
  | ReadWatch
  | WriteWatch
  | Unaligned
  | OutOfMemory
  | SelfModifyingCode
  | AddressOverflow
  | Unknown
deriving DecidableEq

/-- `impl From<icicle_mem::MemError> for ExceptionCode`, the generic
direction-agnostic conversion. -/
def ExceptionCode.from_mem_error : MemError → ExceptionCode
  | .Unmapped => .ReadUnmapped
  | .Uninitalized => .ReadUninitialized
  | .ReadViolation => .ReadPerm
  | .WriteViolation => .WritePerm
  | .ExecViolation => .ExecViolation
  | .ReadWatch => .ReadWatch
  | .WriteWatch => .WriteWatch
  | .Unaligned => .ReadUnaligned
  | .OutOfMemory => .OutOfMemory
  | .SelfModifyingCode => .SelfModifyingCode
  | .AddressOverflow => .AddressOverflow
  | .Unallocated | .Unknown => .UnknownError

/-- `ExceptionCode::from_load_error`: five read-specific arms, then the
wildcard defers to the generic `From` conversion. -/
def ExceptionCode.from_load_error : MemError → ExceptionCode
  | .Unmapped => .ReadUnmapped
  | .Uninitalized => .ReadUninitialized
  | .ReadViolation => .ReadPerm
  | .Unaligned => .ReadUnaligned
  | .ReadWatch => .ReadWatch
  | e => ExceptionCode.from_mem_error e

/-- `ExceptionCode::from_store_error`: four write-specific arms, then the
wildcard defers to the generic `From` conversion. -/
def ExceptionCode.from_store_error : MemError → ExceptionCode
  | .Unmapped => .WriteUnmapped
  | .WriteViolation => .WritePerm
  | .Unaligned => .WriteUnaligned
  | .WriteWatch => .WriteWatch
  | e => ExceptionCode.from_mem_error e

/-- The read-fault family of the spec's taxonomy: the five `Read*`
variants (codes `0x0201`..`0x0205`). Spec-side definition, for comparison
with the converters embedded from the source. -/
def readFamily : ExceptionCode → Bool
  | .ReadUnmapped | .ReadPerm | .ReadUnaligned | .ReadWatch | .ReadUninitialized => true
  | _ => false

/-- The write-fault family of the spec's taxonomy: the four `Write*`
variants (codes `0x0301`..`0x0304`). Spec-side definition, for comparison
with the converters embedded from the source. -/
def writeFamily : ExceptionCode → Bool
  | .WriteUnmapped | .WritePerm | .WriteWatch | .WriteUnaligned => true
  | _ => false

/-- `lifter::DecodeError`. The module is outside `src/`, but its variant
set is fully determined by the exhaustive (no-wildcard) `match` in
`impl From<DecodeError> for ExceptionCode`: exactly these 5 variants. -/
inductive DecodeError where
  | InvalidInstruction
  | NonExecutableMemory
  | BadAlignment
  | DisassemblyChanged
  | OptimizationError
deriving DecidableEq

/-- `impl From<DecodeError> for ExceptionCode`. -/
def ExceptionCode.from_decode_error : DecodeError → ExceptionCode
  | .InvalidInstruction => .InvalidInstruction
  | .NonExecutableMemory => .ExecViolation
  | .BadAlignment => .ExecUnaligned
  | .DisassemblyChanged => .SelfModifyingCode
  | .OptimizationError => .UnknownError

/-- `u64::MAX`. -/
def u64_MAX : Nat := 2 ^ 64 - 1

/-- `<() as Environment>::load`: always fails with the fixed message.
The CPU and path arguments are ignored, so their types are left
polymorphic. -/
def unit_load {Cpu Path : Type} (_cpu : Cpu) (_path : Path) : Except String Unit :=
  .error "No environment loaded"

/-- `<() as Environment>::handle_exception`: always `None`. The result
type `VmExit` is never constructed, so it is left polymorphic. -/
def unit_handle_exception {Cpu VmExit : Type} (_cpu : Cpu) : Option VmExit :=
  none

/-- `Environment::next_timer` default body, inherited by `()`: `u64::MAX`. -/
def unit_next_timer : Nat := u64_MAX

/-- `Environment::debug_info` default body, inherited by `()`: `None`. -/
def unit_debug_info {DebugInfo : Type} : Option DebugInfo := none

/-- `Environment::symbolize_addr` default body, inherited by `()`: `None`. -/
def unit_symbolize_addr {Cpu SourceLocation : Type} (_cpu : Cpu) (_addr : Nat) :
    Option SourceLocation :=
  none

/-- `Environment::lookup_symbol` default body, inherited by `()`: `None`. -/
def unit_lookup_symbol (_symbol : String) : Option Nat := none

/-- `Environment::entry_point` default body, inherited by `()`: `0`. -/
def unit_entry_point : Nat := 0

/-- The instruction stream of the spec's worked example: markers at stream
offsets 0, 5 and 9 carrying addresses `0x1000`, `0x1002`, `0x1005`, with
non-marker instructions in between. -/
def exInstrs : List Instruction :=
  [⟨Op.InstructionMarker, 0x1000⟩,
   ⟨Op.Other 1, 0⟩, ⟨Op.Other 2, 0⟩, ⟨Op.Other 3, 0⟩, ⟨Op.Other 4, 0⟩,
   ⟨Op.InstructionMarker, 0x1002⟩,
   ⟨Op.Other 6, 0⟩, ⟨Op.Other 7, 0⟩, ⟨Op.Other 8, 0⟩,
   ⟨Op.InstructionMarker, 0x1005⟩]

/-- A block table whose single block (id 0) is the example stream. -/
def exTable : BlockTable :=
  { map := [], blocks := [⟨⟨exInstrs⟩⟩], disasm := [], breakpoints := [], modified := [] }

/-- A block table whose single block (id 0) has an empty instruction
stream. -/
def emptyBlockTable : BlockTable :=
  { map := [], blocks := [⟨⟨[]⟩⟩], disasm := [], breakpoints := [], modified := [] }

/-- The value `address_of` actually computes on the example block: the
marker most recently seen strictly before `o` (0 when none). -/
def exAddr (o : Nat) : Nat :=
  if o = 0 then 0
  else if o ≤ 5 then 0x1000
  else if o ≤ 9 then 0x1002
  else 0x1005

/-- C1 (counterexample): on the spec's own example block (markers at
stream offsets 0, 5, 9 with addresses `0x1000`, `0x1002`, `0x1005`),
`address_of(id, 0)` returns 0, not `0x1000` as the claim states: the
marker at offset 0 is not "at or before" position 0 for the code, which
only scans the first `offset` instructions. -/
theorem C1_counterexample :
    exTable.address_of 0 0 = some 0 ∧ exTable.address_of 0 0 ≠ some 0x1000 := by
  decide

/-- C1 (amended): `address_of(id, offset)` returns the address carried by
the marker most recently seen strictly before position `offset` (that is,
among the first `offset` instructions of the stream), and 0 when no such
marker exists. On the example block: 0 at offset 0, `0x1000` for offsets
1..=5, `0x1002` for offsets 6..=9, `0x1005` for every offset ≥ 10; on a
block with an empty instruction stream it returns 0 at every offset. -/
theorem C1_address_of_strictly_before :
    (∀ o : Nat, exTable.address_of 0 o = some (exAddr o)) ∧
    (∀ o : Nat, emptyBlockTable.address_of 0 o = some 0) := by
  refine ⟨fun o => ?_, fun o => ?_⟩
  · rcases Nat.lt_or_ge o 11 with h | h
    · interval_cases o <;> decide
    · have hv : exAddr o = 0x1005 := by
        unfold exAddr
        rw [if_neg (by omega : ¬ o = 0), if_neg (by omega : ¬ o ≤ 5),
          if_neg (by omega : ¬ o ≤ 9)]
      have ht : exInstrs.take o = exInstrs :=
        List.take_of_length_le (by rw [show exInstrs.length = 10 from rfl]; omega)
      rw [hv]
      show some (((((exInstrs.take o).filter
          (fun inst => inst.op == Op.InstructionMarker)).map
          (fun x => x.arg0)).getLast?).getD 0) = some 0x1005
      rw [ht]
      decide
  · show some ((((((List.nil : List Instruction).take o).filter
        (fun inst => inst.op == Op.InstructionMarker)).map
        (fun x => x.arg0)).getLast?).getD 0) = some 0
    rw [List.take_nil]
    decide

/-- C2 (code bug, evaluated): `ExecUnaligned` has the documented value
`0x0404`, but `from_u32` has no arm for it: `from_u32(0x0404)` falls into
the catch-all, giving `UnknownError` in a release build and a panic in a
debug build. Every variant other than `ExecUnaligned` does round-trip. -/
theorem C2_from_u32_misses_ExecUnaligned :
    ExceptionCode.toU32 .ExecUnaligned = 0x0404 ∧
    ExceptionCode.from_u32 false 0x0404 = some .UnknownError ∧
    ExceptionCode.from_u32 true 0x0404 = none ∧
    (∀ v : ExceptionCode, ExceptionCode.from_u32 false v.toU32 =
      some (if v = .ExecUnaligned then .UnknownError else v)) := by
  refine ⟨rfl, by decide, by decide, fun v => ?_⟩
  cases v <;> decide

/-- C3 (counterexample): the directional converters do not always pick
the family matching the direction: `from_load_error(WriteViolation)`
falls through to the generic conversion and yields `WritePerm`, a
write-family code; symmetrically `from_store_error(ReadViolation)` yields
`ReadPerm`, a read-family code. -/
theorem C3_counterexample :
    ExceptionCode.from_load_error .WriteViolation = .WritePerm ∧
    readFamily (ExceptionCode.from_load_error .WriteViolation) = false ∧
    writeFamily (ExceptionCode.from_store_error .ReadViolation) = false := by
  decide

/-- C3 (amended): `from_load_error` yields a read-family code exactly on
the five errors it handles directionally (`Unmapped`, `Uninitalized`,
`ReadViolation`, `Unaligned`, `ReadWatch`), `from_store_error` yields a
write-family code exactly on the four it handles (`Unmapped`,
`WriteViolation`, `Unaligned`, `WriteWatch`); every other error falls
through to the direction-agnostic generic conversion. -/
theorem C3_directional_on_handled_errors :
    ∀ e : MemError,
      (readFamily (ExceptionCode.from_load_error e) = true ↔
        (e = .Unmapped ∨ e = .Uninitalized ∨ e = .ReadViolation ∨
          e = .Unaligned ∨ e = .ReadWatch)) ∧
      (writeFamily (ExceptionCode.from_store_error e) = true ↔
        (e = .Unmapped ∨ e = .WriteViolation ∨ e = .Unaligned ∨ e = .WriteWatch)) ∧
      (¬(e = .Unmapped ∨ e = .Uninitalized ∨ e = .ReadViolation ∨
          e = .Unaligned ∨ e = .ReadWatch) →
        ExceptionCode.from_load_error e = ExceptionCode.from_mem_error e) ∧
      (¬(e = .Unmapped ∨ e = .WriteViolation ∨ e = .Unaligned ∨ e = .WriteWatch) →
        ExceptionCode.from_store_error e = ExceptionCode.from_mem_error e) := by
  intro e
  cases e <;> decide

/-- C3 (witness): the amended statement applied at `WriteViolation`,
discharging the fall-through hypothesis there. -/
theorem C3_witness :
    ExceptionCode.from_load_error .WriteViolation =
      ExceptionCode.from_mem_error .WriteViolation :=
  (C3_directional_on_handled_errors MemError.WriteViolation).2.2.1 (by decide)

/-- C4: `flush_code` empties the lookup map, block store, disassembly
cache and modified set — so every lookup after a flush misses, whatever
was inserted before — and leaves the breakpoint set exactly as it was. -/
theorem C4_flush_code_frame :
    ∀ (t : BlockTable) (k : BlockKey),
      (t.flush_code).lookup k = none ∧
      (t.flush_code).breakpoints = t.breakpoints ∧
      (t.flush_code).map = [] ∧
      (t.flush_code).blocks = [] ∧
      (t.flush_code).disasm = [] ∧
      (t.flush_code).modified = [] :=
  fun _t _k => ⟨rfl, rfl, rfl, rfl, rfl, rfl⟩

/-- C5: on any numeric code that is not one of the documented literals,
`from_u32` reaches the fall-through arm: it returns the catch-all
`UnknownError` when `debug_assertions` is off and panics (modelled as
`none`) when it is on. -/
theorem C5_from_u32_unrecognized (code : Nat) (h : code ∉ documentedCodes) :
    ExceptionCode.from_u32 false code = some ExceptionCode.UnknownError ∧
    ExceptionCode.from_u32 true code = none := by
  have hne : ∀ c ∈ documentedCodes, ¬ code = c := fun c hc hq => h (hq ▸ hc)
  refine ⟨?_, ?_⟩ <;>
  · simp only [ExceptionCode.from_u32]
    rw [if_neg (hne 0x0000 (by decide)), if_neg (hne 0x0001 (by decide)),
      if_neg (hne 0x0002 (by decide)), if_neg (hne 0x0003 (by decide)),
      if_neg (hne 0x0101 (by decide)), if_neg (hne 0x0102 (by decide)),
      if_neg (hne 0x0103 (by decide)),
      if_neg (hne 0x0201 (by decide)), if_neg (hne 0x0202 (by decide)),
      if_neg (hne 0x0203 (by decide)), if_neg (hne 0x0204 (by decide)),
      if_neg (hne 0x0205 (by decide)),
      if_neg (hne 0x0301 (by decide)), if_neg (hne 0x0302 (by decide)),
      if_neg (hne 0x0303 (by decide)), if_neg (hne 0x0304 (by decide)),
      if_neg (hne 0x0401 (by decide)), if_neg (hne 0x0402 (by decide)),
      if_neg (hne 0x0501 (by decide)), if_neg (hne 0x0502 (by decide)),
      if_neg (hne 0x1001 (by decide)), if_neg (hne 0x1002 (by decide)),
      if_neg (hne 0x1003 (by decide)), if_neg (hne 0x1004 (by decide)),
      if_neg (hne 0x1005 (by decide)), if_neg (hne 0x1006 (by decide)),
      if_neg (hne 0x1007 (by decide)), if_neg (hne 0x1008 (by decide)),
      if_neg (hne 0x1009 (by decide)), if_neg (hne 0x100a (by decide)),
      if_neg (hne 0x2001 (by decide)), if_neg (hne 0x2002 (by decide)),
      if_neg (hne 0x3001 (by decide)), if_neg (hne 0x3002 (by decide))]
    decide

/-- C5 (witness): the unrecognized code `0xdead`. -/
theorem C5_witness :
    ExceptionCode.from_u32 false 0xdead = some ExceptionCode.UnknownError ∧
    ExceptionCode.from_u32 true 0xdead = none :=
  C5_from_u32_unrecognized 0xdead (by decide)

/-- C6: the decode-error conversion maps to the catch-all exactly on
`OptimizationError`; the four other decode errors map to the dedicated
(non-catch-all) codes `InvalidInstruction`, `ExecViolation`,
`ExecUnaligned` and `SelfModifyingCode`. -/
theorem C6_from_decode_error :
    (∀ e : DecodeError,
      ExceptionCode.from_decode_error e = .UnknownError ↔ e = .OptimizationError) ∧
    ExceptionCode.from_decode_error .InvalidInstruction = .InvalidInstruction ∧
    ExceptionCode.from_decode_error .NonExecutableMemory = .ExecViolation ∧
    ExceptionCode.from_decode_error .BadAlignment = .ExecUnaligned ∧
    ExceptionCode.from_decode_error .DisassemblyChanged = .SelfModifyingCode := by
  refine ⟨fun e => ?_, rfl, rfl, rfl, rfl⟩
  cases e <;> decide

/-- C7: the same `Unmapped` memory error converts to `ReadUnmapped`
through `from_load_error` and to `WriteUnmapped` through
`from_store_error` — same input, different output, the direction coming
only from the choice of converter. -/
theorem C7_unmapped_is_directional :
    ExceptionCode.from_load_error .Unmapped = .ReadUnmapped ∧
    ExceptionCode.from_store_error .Unmapped = .WriteUnmapped ∧
    ExceptionCode.from_load_error .Unmapped ≠
      ExceptionCode.from_store_error .Unmapped := by
  decide

/-- C8: `is_running` is true exactly on `None` and `InstructionLimit`,
and in particular false on the catch-all `UnknownError`. -/
theorem C8_is_running :
    (∀ c : ExceptionCode,
      c.is_running = true ↔ (c = .None ∨ c = .InstructionLimit)) ∧
    ExceptionCode.is_running .UnknownError = false := by
  refine ⟨fun c => ?_, rfl⟩
  cases c <;> decide

/-- C9: the no-op (unit) environment fails `load` with the fixed message
"No environment loaded", resolves no exception (`handle_exception` is
always `None`), never requests a timer interrupt (`next_timer` is
`u64::MAX`), has no debug information, symbolication or symbol lookup,
and reports entry point 0. -/
theorem C9_unit_environment :
    ∀ {Cpu Path VmExit DebugInfo SourceLocation : Type}
      (cpu : Cpu) (path : Path) (addr : Nat) (sym : String),
      unit_load cpu path = Except.error "No environment loaded" ∧
      @unit_handle_exception Cpu VmExit cpu = none ∧
      unit_next_timer = u64_MAX ∧
      unit_next_timer = 18446744073709551615 ∧
      @unit_debug_info DebugInfo = none ∧
      @unit_symbolize_addr Cpu SourceLocation cpu addr = none ∧
      unit_lookup_symbol sym = none ∧
      unit_entry_point = 0 :=
  fun _cpu _path _addr _sym => ⟨rfl, rfl, rfl, rfl, rfl, rfl, rfl, rfl⟩

/-- C10: `address_of` is defined (the panic branch of the unchecked
block-store indexing is not taken) exactly when `id` is a valid index of
the block store: its result is `some` iff `id < blocks.length`. -/
theorem C10_address_of_requires_valid_id :
    ∀ (t : BlockTable) (id off : Nat),
      (t.address_of id off).isSome = true ↔ id < t.blocks.length := by
  intro t id off
  unfold BlockTable.address_of
  cases h : t.blocks[id]? with
  | none =>
      simp only [Option.map_none', Option.isSome_none]
      constructor
      · intro hc
        exact absurd hc (by decide)
      · intro hlt
        exact absurd (List.getElem?_eq_none_iff.mp h) (by omega)
  | some b =>
      simp only [Option.map_some', Option.isSome_some]
      constructor
      · intro _
        exact (List.getElem?_eq_some.mp h).1
      · intro _
        trivial

end Icicle
